import Mathlib

/-!
Verification of the authentication core of a minimal FastAPI backend
(`security.py`, `app/core/config.py`, `main.py` login handler).

Modelling conventions:
* Wall-clock instants (`datetime.now(timezone.utc)`) are `Int` seconds since
  the epoch and are passed explicitly to each function that reads the clock.
* `timedelta` values are `Int` seconds; `timedelta(minutes=m) = m*60`,
  `timedelta(days=d) = d*86400`.  Python truthiness of a `timedelta | None`
  argument (`if expires_delta:`) is `false` for `None` and for a zero delta.
* Randomness (`bcrypt.gensalt()`) is passed explicitly as a salt parameter.
* Fallible library calls are `Except PyError _`; an uncaught Python exception
  is the `.error` branch.
-/

deriving instance DecidableEq for Except

/-- A Python exception raised by a library call. -/
inductive PyError where
  | valueError (msg : String)
  | notImplementedError (msg : String)
deriving DecidableEq, Repr

/-! ## Model of the `bcrypt` library

The encoded bcrypt hash is an opaque string to the repository code.  We model
its string domain by whether it parses as a bcrypt modular-crypt encoding:
`valid cost salt digest` stands for a well-formed encoding embedding its cost
factor, salt and digest, `invalid raw` for any other string.  `hashpw` is the
one-way digest (modelled by a concrete mixing function: the repository never
relies on its cryptographic properties, only on determinism in
`(password, salt, cost)` and on the salt being embedded in the output).
`checkpw` re-derives the digest with the embedded salt and compares; on a
string that does not parse, the library raises `ValueError("Invalid salt")`. -/
inductive BcryptEncoded where
  | valid (cost : Nat) (salt : Nat) (digest : Nat)
  | invalid (raw : String)
deriving DecidableEq, Repr

/-- Model of bcrypt's key-derivation digest: deterministic in password, salt
and cost factor. -/
def bcryptDigest (password : String) (salt : Nat) (cost : Nat) : Nat :=
  password.data.foldl (fun a c => a * 131 + c.toNat + 1) (salt * 2 ^ cost + cost)

/-- `bcrypt.gensalt()` with the library-default cost factor 12; the random
salt is the explicit argument. -/
def gensalt (randomSalt : Nat) : Nat × Nat := (randomSalt, 12)

/-- `bcrypt.hashpw(password, salt)`: a self-contained encoding holding cost,
salt and digest. -/
def hashpw (password : String) (salt : Nat × Nat) : BcryptEncoded :=
  .valid salt.2 salt.1 (bcryptDigest password salt.1 salt.2)

/-- `bcrypt.checkpw(password, hash)`: recompute with the embedded salt and
compare; raise `ValueError("Invalid salt")` on a malformed hash. -/
def checkpw (password : String) (hash : BcryptEncoded) : Except PyError Bool :=
  match hash with
  | .valid cost salt digest => .ok (bcryptDigest password salt cost == digest)
  | .invalid _ => .error (.valueError "Invalid salt")

/-! ## Model of the PyJWT library (`jwt.encode`) -/

/-- A JSON value appearing in a JWT claim set. -/
inductive ClaimValue where
  | str (s : String)
  | int (n : Int)
deriving DecidableEq, Repr

/-- The algorithms PyJWT registers by default (HMAC and, with the crypto
backend, RSA/ECDSA/RSA-PSS); any other tag raises
`NotImplementedError("Algorithm not supported")`. -/
def supportedAlgorithms : List String :=
  ["none", "HS256", "HS384", "HS512", "RS256", "RS384", "RS512",
   "ES256", "ES384", "ES512", "PS256", "PS384", "PS512"]

/-- A signed token.  The compact JWS string returned by `jwt.encode` is an
invertible serialization of the header algorithm, the claim set and the
signature; we keep the record and serialize it with `Jwt.render`. -/
structure Jwt where
  alg : String
  payload : List (String × ClaimValue)
  key : String
deriving DecidableEq, Repr

def claimValueRepr : ClaimValue → String
  | .str s => "s:" ++ s
  | .int n => "i:" ++ toString n

def claimsRepr (payload : List (String × ClaimValue)) : String :=
  payload.foldl (fun acc kv => acc ++ ";" ++ kv.1 ++ "=" ++ claimValueRepr kv.2) ""

/-- The compact serialization `header.payload.signature` of a signed token:
always a non-empty string with two dot separators. -/
def Jwt.render (t : Jwt) : String :=
  "alg=" ++ t.alg ++ "." ++ claimsRepr t.payload ++ "." ++ "sig=" ++ t.key

/-- `jwt.encode(payload, key, algorithm)`: any string (the empty string
included) is accepted as an HMAC key; an unregistered algorithm tag raises
`NotImplementedError`. -/
def jwtEncode (payload : List (String × ClaimValue)) (key : String)
    (algorithm : String) : Except PyError Jwt :=
  if supportedAlgorithms.contains algorithm then
    .ok { alg := algorithm, payload := payload, key := key }
  else
    .error (.notImplementedError "Algorithm not supported")

/-! ## `app/core/config.py` -/

/-- `Settings(BaseSettings)`: every field has a default, so construction
never fails; in particular `SECRET_KEY` defaults to the empty string and no
validator inspects the secret or the algorithm. -/
structure Settings where
  DATABASE_URL : String
  SECRET_KEY : String
  ACCESS_TOKEN_EXPIRE_MINUTES : Int
  REFRESH_TOKEN_EXPIRE_DAYS : Int
  JWT_ALGORITHM : String
deriving DecidableEq, Repr

/-- `Settings()` with no environment overrides: the field defaults. -/
def defaultSettings : Settings :=
  { DATABASE_URL := ""
    SECRET_KEY := ""
    ACCESS_TOKEN_EXPIRE_MINUTES := 15
    REFRESH_TOKEN_EXPIRE_DAYS := 7
    JWT_ALGORITHM := "HS256" }

/-! ## `security.py` -/

/-- Modelled from the spec: `TokenPayload` (defined in `models.py`, absent
from the sources) is the access-token claim schema; per spec section 6 the
access-token claim set is the flat map with the single field `sub : string`
before `exp` is added. -/
structure TokenPayload where
  sub : String
deriving DecidableEq, Repr

/-- `TokenPayload.model_dump()`: the flat key-value map of the fields. -/
def tokenPayloadDump (data : TokenPayload) : List (String × ClaimValue) :=
  [("sub", .str data.sub)]

/-- Python `dict.update({k: v})`: replace the value at an existing key,
otherwise append the new key. -/
def dictUpdate (m : List (String × ClaimValue)) (k : String) (v : ClaimValue) :
    List (String × ClaimValue) :=
  if (m.lookup k).isSome then
    m.map (fun p => if p.1 == k then (k, v) else p)
  else
    m ++ [(k, v)]

/-- Python truthiness of a `timedelta | None` value: `None` and the zero
delta are falsy, every non-zero delta (negative included) is truthy. -/
def timedeltaTruthy : Option Int → Bool
  | none => false
  | some d => d != 0

/-- `get_password_hash(password)`: hash under a fresh salt
(`bcrypt.gensalt()`, randomness explicit) and return the encoded string. -/
def get_password_hash (password : String) (randomSalt : Nat) : BcryptEncoded :=
  hashpw password (gensalt randomSalt)

/-- `verify_password(plain_password, hash_password)`: delegate to
`bcrypt.checkpw` with no exception handling. -/
def verify_password (plain_password : String) (hash_password : BcryptEncoded) :
    Except PyError Bool :=
  checkpw plain_password hash_password

/-- `create_access_token(data, expires_delta=None)`: start from the
configured default duration, override it when `expires_delta` is truthy,
set `exp = now + duration` and sign the dumped claims. -/
def create_access_token (s : Settings) (data : TokenPayload)
    (expires_delta : Option Int) (now : Int) : Except PyError Jwt :=
  let to_encode := tokenPayloadDump data
  let duration : Int :=
    if timedeltaTruthy expires_delta then expires_delta.getD 0
    else s.ACCESS_TOKEN_EXPIRE_MINUTES * 60
  let expire := now + duration
  let to_encode := dictUpdate to_encode "exp" (.int expire)
  jwtEncode to_encode s.SECRET_KEY s.JWT_ALGORITHM

/-- `create_refresh_token(subject)`: claims
`{sub, type: "refresh", exp: now + REFRESH_TOKEN_EXPIRE_DAYS days}`. -/
def create_refresh_token (s : Settings) (subject : String) (now : Int) :
    Except PyError Jwt :=
  let expire := now + s.REFRESH_TOKEN_EXPIRE_DAYS * 86400
  let to_encode : List (String × ClaimValue) :=
    [("sub", .str subject), ("type", .str "refresh"), ("exp", .int expire)]
  jwtEncode to_encode s.SECRET_KEY s.JWT_ALGORITHM

/-! ## `main.py` login handler -/

/-- A persisted user row (`UserModel`), as read by the login handler. -/
structure User where
  id : Nat
  name : String
  email : String
  password_hash : BcryptEncoded
  is_verified : Bool
deriving DecidableEq, Repr

/-- The login request body (`UserLogin`). -/
structure UserLogin where
  email : String
  password : String
deriving DecidableEq, Repr

/-- `response.set_cookie(...)` arguments recorded on the response. -/
structure Cookie where
  key : String
  value : Jwt
  httponly : Bool
  secure : Bool
  samesite : String
  max_age : Int
deriving DecidableEq, Repr

/-- The `user` object of the login response body. -/
structure UserOut where
  id : Nat
  name : String
  email : String
  is_verified : Bool
deriving DecidableEq, Repr

/-- A successful login response: JSON body plus the cookie set on it. -/
structure LoginResult where
  access_token : Jwt
  user : UserOut
  cookie : Cookie
deriving DecidableEq, Repr

/-- How a login request fails: an `HTTPException(status_code, detail)`
raised by the handler, or an exception the handler does not catch. -/
inductive LoginError where
  | http (status_code : Nat) (detail : String)
  | uncaught (e : PyError)
deriving DecidableEq, Repr

/-- The `/auth/login` handler of `main.py`: look the user up by email
(400 when absent), verify the password (401 on mismatch), then issue an
access token with an explicit 15-minute expiry and a refresh token delivered
in an HTTP-only, lax, non-secure cookie.  `db` is the user store's
email lookup (`db.query(UserModel).filter(...).first()`). -/
def login (s : Settings) (db : String → Option User) (payload : UserLogin)
    (now : Int) : Except LoginError LoginResult :=
  match db payload.email with
  | none => .error (.http 400 "user does not exist")
  | some user =>
    match verify_password payload.password user.password_hash with
    | .error e => .error (.uncaught e)
    | .ok is_match =>
      if !is_match then .error (.http 401 "Invalid password")
      else
        match create_access_token s { sub := toString user.id } (some (15 * 60)) now with
        | .error e => .error (.uncaught e)
        | .ok access_token =>
          match create_refresh_token s (toString user.id) now with
          | .error e => .error (.uncaught e)
          | .ok refresh_token =>
            .ok { access_token := access_token
                  user := { id := user.id, name := user.name,
                            email := user.email, is_verified := user.is_verified }
                  cookie := { key := "refresh_token"
                              value := refresh_token
                              httponly := true
                              secure := false
                              samesite := "lax"
                              max_age := s.REFRESH_TOKEN_EXPIRE_DAYS * 24 * 60 * 60 } }

/-! ## Theorems -/

/-- C1: verifying a password against the hash just produced for it succeeds,
whatever fresh random salt `bcrypt.gensalt()` drew. -/
theorem verify_of_get_password_hash (p : String) (randomSalt : Nat) :
    verify_password p (get_password_hash p randomSalt) = .ok true := by
  simp [verify_password, get_password_hash, hashpw, gensalt, checkpw]

/-- Helper: updating a fresh key appends it to the single-field dump. -/
theorem dictUpdate_sub_exp (v e : ClaimValue) :
    dictUpdate [("sub", v)] "exp" e = [("sub", v), ("exp", e)] := rfl

/-- Helper: the compact serialization of any signed token is non-empty. -/
theorem Jwt.render_ne_empty (t : Jwt) : t.render ≠ "" := by
  intro h
  have h2 := congrArg String.length h
  simp only [Jwt.render, String.length_append] at h2
  have h3 : "alg=".length = 4 := rfl
  have h4 : ("" : String).length = 0 := rfl
  omega

/-- Helper: an access token with an explicit 15-minute `expires_delta`
(a truthy timedelta) carries `exp = now + 900`. -/
theorem create_access_token_explicit_15 (s : Settings) (data : TokenPayload)
    (now : Int) (halg : supportedAlgorithms.contains s.JWT_ALGORITHM = true) :
    create_access_token s data (some (15 * 60)) now =
      .ok { alg := s.JWT_ALGORITHM
            payload := [("sub", .str data.sub), ("exp", .int (now + 15 * 60))]
            key := s.SECRET_KEY } := by
  simp only [create_access_token, timedeltaTruthy, tokenPayloadDump, dictUpdate_sub_exp,
    jwtEncode, halg, if_true]
  norm_num

/-- Helper: with no `expires_delta`, the configured default duration applies. -/
theorem create_access_token_default (s : Settings) (data : TokenPayload)
    (now : Int) (halg : supportedAlgorithms.contains s.JWT_ALGORITHM = true) :
    create_access_token s data none now =
      .ok { alg := s.JWT_ALGORITHM
            payload := [("sub", .str data.sub),
                        ("exp", .int (now + s.ACCESS_TOKEN_EXPIRE_MINUTES * 60))]
            key := s.SECRET_KEY } := by
  simp only [create_access_token, timedeltaTruthy, tokenPayloadDump, dictUpdate_sub_exp,
    jwtEncode, halg, if_true]
  norm_num

/-- Helper: the refresh token's exact claim set. -/
theorem create_refresh_token_ok (s : Settings) (subject : String) (now : Int)
    (halg : supportedAlgorithms.contains s.JWT_ALGORITHM = true) :
    create_refresh_token s subject now =
      .ok { alg := s.JWT_ALGORITHM
            payload := [("sub", .str subject), ("type", .str "refresh"),
                        ("exp", .int (now + s.REFRESH_TOKEN_EXPIRE_DAYS * 86400))]
            key := s.SECRET_KEY } := by
  simp only [create_refresh_token, jwtEncode, halg, if_true]

/-- C2: evaluation at the failing input.  A token requested with
`expires_delta = timedelta(0)` is NOT stamped with `exp = now`: the zero
timedelta is falsy, so `if expires_delta:` skips the override and the
15-minute default applies — at `now = 0` the token carries `exp = 900`,
not `0`, so it is not expired at issuance. -/
theorem zero_ttl_token_not_expired_at_issuance :
    create_access_token defaultSettings { sub := "42" } (some 0) 0 =
      .ok { alg := "HS256", payload := [("sub", .str "42"), ("exp", .int 900)],
            key := "" } ∧
    (900 : Int) ≠ 0 := by
  exact ⟨rfl, by decide⟩

/-- C5: evaluation at the failing input, next to the two behaviours that do
hold.  With `expires_delta = timedelta(0)` supplied, `exp` is `now + 900`
(the configured default), not `now + 0` as the claim requires; with no
`expires_delta` the default applies, and with a non-zero `expires_delta` the
override applies and the payload is the flat claim map plus `exp`. -/
theorem access_token_exp_policy_at_zero_ttl :
    create_access_token defaultSettings { sub := "1" } (some 0) 1000 =
      .ok { alg := "HS256", payload := [("sub", .str "1"), ("exp", .int 1900)],
            key := "" } ∧
    (1900 : Int) ≠ 1000 + 0 ∧
    create_access_token defaultSettings { sub := "1" } none 1000 =
      .ok { alg := "HS256", payload := [("sub", .str "1"), ("exp", .int 1900)],
            key := "" } ∧
    create_access_token defaultSettings { sub := "1" } (some 60) 1000 =
      .ok { alg := "HS256", payload := [("sub", .str "1"), ("exp", .int 1060)],
            key := "" } := by
  exact ⟨rfl, by decide, rfl, rfl⟩

/-- C3, counterexample: on a malformed encoded hash `verify_password` does
not return `false` — it propagates bcrypt's `ValueError("Invalid salt")`. -/
theorem verify_password_malformed_raises :
    verify_password "password" (.invalid "nothash") =
      .error (.valueError "Invalid salt") := rfl

/-- C3, amended: `verify_password` totally returns a boolean on every
well-formed encoded hash (`false` exactly on digest mismatch), but on a
malformed encoded hash it raises `ValueError` instead of failing closed. -/
theorem verify_password_behavior :
    (∀ (p : String) (cost salt digest : Nat),
        verify_password p (.valid cost salt digest) =
          .ok (bcryptDigest p salt cost == digest)) ∧
    (∀ (p raw : String),
        verify_password p (.invalid raw) = .error (.valueError "Invalid salt")) :=
  ⟨fun _ _ _ _ => rfl, fun _ _ => rfl⟩

/-- C6, counterexample: the configured secret defaults to the empty string,
settings construction succeeds, and token creation with that empty secret
succeeds rather than failing with a configuration error. -/
theorem empty_secret_signing_succeeds :
    defaultSettings.SECRET_KEY = "" ∧
    create_access_token defaultSettings { sub := "1" } none 0 =
      .ok { alg := "HS256", payload := [("sub", .str "1"), ("exp", .int 900)],
            key := "" } :=
  ⟨rfl, rfl⟩

/-- C6, amended: no configuration validation exists.  `Settings` is total
(every field has a default, `SECRET_KEY` defaulting to `""`), tokens are
signed successfully with the empty secret, and an unsupported algorithm tag
raises `NotImplementedError` only at token-creation time, never at
startup. -/
theorem no_startup_config_validation :
    (∀ (data : TokenPayload) (d : Option Int) (now : Int),
        ∃ t : Jwt, create_access_token defaultSettings data d now = .ok t ∧
          t.key = "") ∧
    (∀ (s : Settings) (data : TokenPayload) (d : Option Int) (now : Int),
        supportedAlgorithms.contains s.JWT_ALGORITHM = false →
        create_access_token s data d now =
          .error (.notImplementedError "Algorithm not supported")) := by
  constructor
  · intro data d now
    exact ⟨_, rfl, rfl⟩
  · intro s data d now h
    simp only [create_access_token, jwtEncode, h]
    norm_num

/-- C6, witness for the amended theorem at a concrete unsupported
algorithm tag. -/
theorem no_startup_config_validation_witness :
    create_access_token
      { DATABASE_URL := "", SECRET_KEY := "", ACCESS_TOKEN_EXPIRE_MINUTES := 15,
        REFRESH_TOKEN_EXPIRE_DAYS := 7, JWT_ALGORITHM := "HS999" }
      { sub := "1" } none 0 =
      .error (.notImplementedError "Algorithm not supported") :=
  no_startup_config_validation.2 _ { sub := "1" } none 0 (by decide)

/-- C4: under the default TTL configuration, the refresh token's claim set is
exactly `sub`, `type = "refresh"`, `exp = now + 7 days`, while an access
token issued at the same instant with no override carries
`exp = now + 15 minutes`, no `type` key, and a different `exp`. -/
theorem refresh_and_access_claim_sets (s : Settings) (subject : String)
    (data : TokenPayload) (now : Int)
    (halg : supportedAlgorithms.contains s.JWT_ALGORITHM = true)
    (hr : s.REFRESH_TOKEN_EXPIRE_DAYS = 7)
    (ha : s.ACCESS_TOKEN_EXPIRE_MINUTES = 15) :
    create_refresh_token s subject now =
      .ok { alg := s.JWT_ALGORITHM
            payload := [("sub", .str subject), ("type", .str "refresh"),
                        ("exp", .int (now + 7 * 86400))]
            key := s.SECRET_KEY } ∧
    create_access_token s data none now =
      .ok { alg := s.JWT_ALGORITHM
            payload := [("sub", .str data.sub), ("exp", .int (now + 15 * 60))]
            key := s.SECRET_KEY } ∧
    ([("sub", ClaimValue.str data.sub),
      ("exp", ClaimValue.int (now + 15 * 60))].lookup "type" = none) ∧
    now + 15 * 60 ≠ now + 7 * 86400 := by
  refine ⟨?_, ?_, rfl, by omega⟩
  · rw [create_refresh_token_ok s subject now halg, hr]
  · rw [create_access_token_default s data now halg, ha]

/-- C4 witness: the claim-set comparison at the default settings, subject
`"1"`, issuance time `0`. -/
theorem refresh_and_access_claim_sets_witness :
    create_refresh_token defaultSettings "1" 0 =
      .ok { alg := defaultSettings.JWT_ALGORITHM
            payload := [("sub", .str "1"), ("type", .str "refresh"),
                        ("exp", .int (0 + 7 * 86400))]
            key := defaultSettings.SECRET_KEY } ∧
    create_access_token defaultSettings { sub := "1" } none 0 =
      .ok { alg := defaultSettings.JWT_ALGORITHM
            payload := [("sub", .str "1"), ("exp", .int (0 + 15 * 60))]
            key := defaultSettings.SECRET_KEY } ∧
    ([("sub", ClaimValue.str "1"),
      ("exp", ClaimValue.int (0 + 15 * 60))].lookup "type" = none) ∧
    (0 : Int) + 15 * 60 ≠ 0 + 7 * 86400 :=
  refresh_and_access_claim_sets defaultSettings "1" { sub := "1" } 0
    (by decide) rfl rfl

/-- C8: hashing the same password under two distinct random salts yields two
distinct encoded hashes, and the password verifies against both. -/
theorem hash_salt_injectivity (p : String) (s1 s2 : Nat) (h : s1 ≠ s2) :
    get_password_hash p s1 ≠ get_password_hash p s2 ∧
    verify_password p (get_password_hash p s1) = .ok true ∧
    verify_password p (get_password_hash p s2) = .ok true := by
  refine ⟨?_, ?_, ?_⟩
  · intro he
    simp only [get_password_hash, hashpw, gensalt, BcryptEncoded.valid.injEq] at he
    exact h he.2.1
  · simp [verify_password, get_password_hash, hashpw, gensalt, checkpw]
  · simp [verify_password, get_password_hash, hashpw, gensalt, checkpw]

/-- C8 witness: the two-salt property at password `"secret1"` and salts
`0`, `1`. -/
theorem hash_salt_injectivity_witness :
    get_password_hash "secret1" 0 ≠ get_password_hash "secret1" 1 ∧
    verify_password "secret1" (get_password_hash "secret1" 0) = .ok true ∧
    verify_password "secret1" (get_password_hash "secret1" 1) = .ok true :=
  hash_salt_injectivity "secret1" 0 1 (by decide)

/-- Helper: the full shape of a successful login response. -/
theorem login_ok (s : Settings) (db : String → Option User) (payload : UserLogin)
    (now : Int) (u : User)
    (halg : supportedAlgorithms.contains s.JWT_ALGORITHM = true)
    (hdb : db payload.email = some u)
    (hpw : verify_password payload.password u.password_hash = .ok true) :
    login s db payload now = .ok
      { access_token :=
          { alg := s.JWT_ALGORITHM
            payload := [("sub", .str (toString u.id)),
                        ("exp", .int (now + 15 * 60))]
            key := s.SECRET_KEY }
        user := { id := u.id, name := u.name, email := u.email,
                  is_verified := u.is_verified }
        cookie :=
          { key := "refresh_token"
            value :=
              { alg := s.JWT_ALGORITHM
                payload := [("sub", .str (toString u.id)),
                            ("type", .str "refresh"),
                            ("exp", .int (now + s.REFRESH_TOKEN_EXPIRE_DAYS * 86400))]
                key := s.SECRET_KEY }
            httponly := true
            secure := false
            samesite := "lax"
            max_age := s.REFRESH_TOKEN_EXPIRE_DAYS * 24 * 60 * 60 } } := by
  simp only [login, hdb, hpw,
    create_access_token_explicit_15 s { sub := toString u.id } now halg,
    create_refresh_token_ok s (toString u.id) now halg, Bool.not_true,
    Bool.false_eq_true, if_false]

/-- C7: on an unknown email the login handler raises
`HTTPException(400, "user does not exist")`; on a known email with a
non-matching password it raises `HTTPException(401, "Invalid password")`;
the two errors are distinguishable, and an error response carries no
token (it is never a success value). -/
theorem login_error_cases (s : Settings) (db : String → Option User)
    (payload : UserLogin) (now : Int) :
    (db payload.email = none →
        login s db payload now = .error (.http 400 "user does not exist")) ∧
    (∀ u : User, db payload.email = some u →
        verify_password payload.password u.password_hash = .ok false →
        login s db payload now = .error (.http 401 "Invalid password")) ∧
    LoginError.http 400 "user does not exist" ≠
      LoginError.http 401 "Invalid password" ∧
    (∀ (e : LoginError) (r : LoginResult),
        (Except.error e : Except LoginError LoginResult) ≠ .ok r) := by
  refine ⟨?_, ?_, by decide, fun e r h => by cases h⟩
  · intro h
    simp only [login, h]
  · intro u hdb hpw
    simp only [login, hdb, hpw, Bool.not_false, if_true]

/-- C7 witness: the 400 case on an empty store and the 401 case on a store
holding a user whose stored hash is of a different password. -/
theorem login_error_cases_witness :
    login defaultSettings (fun _ => none) { email := "a@x.com", password := "pw" } 0 =
      .error (.http 400 "user does not exist") ∧
    login defaultSettings
      (fun _ => some { id := 1, name := "A", email := "a@x.com",
                       password_hash := get_password_hash "secret1" 7,
                       is_verified := false })
      { email := "a@x.com", password := "wrong" } 0 =
      .error (.http 401 "Invalid password") :=
  ⟨(login_error_cases defaultSettings (fun _ => none)
      { email := "a@x.com", password := "pw" } 0).1 rfl,
   (login_error_cases defaultSettings
      (fun _ => some { id := 1, name := "A", email := "a@x.com",
                       password_hash := get_password_hash "secret1" 7,
                       is_verified := false })
      { email := "a@x.com", password := "wrong" } 0).2.1 _ rfl (by decide)⟩

/-- C9: every successful login returns a non-empty encoded access token in
the body and sets a `refresh_token` cookie that is HTTP-only, SameSite lax,
with `max_age = REFRESH_TOKEN_EXPIRE_DAYS * 86400` seconds. -/
theorem login_success_response (s : Settings) (db : String → Option User)
    (payload : UserLogin) (now : Int) (u : User)
    (halg : supportedAlgorithms.contains s.JWT_ALGORITHM = true)
    (hdb : db payload.email = some u)
    (hpw : verify_password payload.password u.password_hash = .ok true) :
    ∃ r : LoginResult, login s db payload now = .ok r ∧
      r.access_token.render ≠ "" ∧
      r.cookie.key = "refresh_token" ∧
      r.cookie.httponly = true ∧
      r.cookie.samesite = "lax" ∧
      r.cookie.max_age = s.REFRESH_TOKEN_EXPIRE_DAYS * 86400 := by
  refine ⟨_, login_ok s db payload now u halg hdb hpw,
    Jwt.render_ne_empty _, rfl, rfl, rfl, by ring⟩

/-- C9 witness: a concrete successful login at the default settings. -/
theorem login_success_response_witness :
    ∃ r : LoginResult,
      login defaultSettings
        (fun _ => some { id := 1, name := "A", email := "a@x.com",
                         password_hash := get_password_hash "secret1" 7,
                         is_verified := false })
        { email := "a@x.com", password := "secret1" } 0 = .ok r ∧
      r.access_token.render ≠ "" ∧
      r.cookie.key = "refresh_token" ∧
      r.cookie.httponly = true ∧
      r.cookie.samesite = "lax" ∧
      r.cookie.max_age = defaultSettings.REFRESH_TOKEN_EXPIRE_DAYS * 86400 :=
  login_success_response defaultSettings
    (fun _ => some { id := 1, name := "A", email := "a@x.com",
                     password_hash := get_password_hash "secret1" 7,
                     is_verified := false })
    { email := "a@x.com", password := "secret1" } 0
    { id := 1, name := "A", email := "a@x.com",
      password_hash := get_password_hash "secret1" 7, is_verified := false }
    (by decide) rfl (by decide)

/-- C10: the flat `main.py` handler passes an explicit
`expires_delta = timedelta(minutes=15)`, so the issued access token always
carries `exp = now + 900` for any configured `ACCESS_TOKEN_EXPIRE_MINUTES`,
and changing that configuration leaves the issued access token unchanged. -/
theorem flat_login_exp_ignores_config (s : Settings) (db : String → Option User)
    (payload : UserLogin) (now : Int) (u : User)
    (halg : supportedAlgorithms.contains s.JWT_ALGORITHM = true)
    (hdb : db payload.email = some u)
    (hpw : verify_password payload.password u.password_hash = .ok true) :
    ∃ r : LoginResult, login s db payload now = .ok r ∧
      r.access_token.payload.lookup "exp" = some (.int (now + 15 * 60)) ∧
      (∀ m : Int, ∃ r2 : LoginResult,
        login { s with ACCESS_TOKEN_EXPIRE_MINUTES := m } db payload now = .ok r2 ∧
        r2.access_token = r.access_token) := by
  refine ⟨_, login_ok s db payload now u halg hdb hpw, rfl, ?_⟩
  intro m
  exact ⟨_, login_ok { s with ACCESS_TOKEN_EXPIRE_MINUTES := m } db payload now u
    halg hdb hpw, rfl⟩

/-- C10 witness: the configuration-independence of the issued `exp` at a
concrete login. -/
theorem flat_login_exp_ignores_config_witness :
    ∃ r : LoginResult,
      login defaultSettings
        (fun _ => some { id := 2, name := "B", email := "b@x.com",
                         password_hash := get_password_hash "pw" 3,
                         is_verified := true })
        { email := "b@x.com", password := "pw" } 50 = .ok r ∧
      r.access_token.payload.lookup "exp" = some (.int (50 + 15 * 60)) ∧
      (∀ m : Int, ∃ r2 : LoginResult,
        login { defaultSettings with ACCESS_TOKEN_EXPIRE_MINUTES := m }
          (fun _ => some { id := 2, name := "B", email := "b@x.com",
                           password_hash := get_password_hash "pw" 3,
                           is_verified := true })
          { email := "b@x.com", password := "pw" } 50 = .ok r2 ∧
        r2.access_token = r.access_token) :=
  flat_login_exp_ignores_config defaultSettings
    (fun _ => some { id := 2, name := "B", email := "b@x.com",
                     password_hash := get_password_hash "pw" 3,
                     is_verified := true })
    { email := "b@x.com", password := "pw" } 50
    { id := 2, name := "B", email := "b@x.com",
      password_hash := get_password_hash "pw" 3, is_verified := true }
    (by decide) rfl (by decide)
